import Mathlib

/-!
Shallow embedding of the provider-agnostic LLM invocation layer of the
gitar repository (src/llm.py and src/gitai.py), together with theorems
settling the frozen claims about its specification.

Python JSON values (the result of json.loads / requests' resp.json()) are
modelled by the inductive type Json below; JSON numbers are modelled as
rationals, which is exact for every decimal literal occurring in the
sources (0, 0.3, integer token counts).  Python dictionaries are modelled
as association lists with distinct keys (json.loads produces dicts, so no
key occurs twice in any value this layer ever builds or receives).
Fallible attribute access (calling .get on a value that may not be a dict,
which raises AttributeError in Python) is modelled in an Except monad.
-/

/-- A decoded JSON value as Python's json module produces it. -/
inductive Json where
  | null : Json
  | bool : Bool → Json
  | num : ℚ → Json
  | str : String → Json
  | arr : List Json → Json
  | obj : List (String × Json) → Json
deriving Repr

/-- The one Python exception class the embedding needs: AttributeError,
raised when .get is called on a non-dict value. -/
inductive PyErr where
  | attributeError : PyErr
deriving Repr, DecidableEq

/-- Python dict .get(k): the value stored at k, or None (Json.null) when the
key is absent.  Only callable on an object; see Json.attrGet for receivers
that may not be objects. -/
def objGet (kvs : List (String × Json)) (k : String) : Json :=
  match kvs.find? (fun kv => kv.1 == k) with
  | some kv => kv.2
  | none => .null

/-- Python v.get(k) where v is an arbitrary value: AttributeError unless v
is a dict. -/
def Json.attrGet (j : Json) (k : String) : Except PyErr Json :=
  match j with
  | .obj kvs => .ok (objGet kvs k)
  | _ => .error .attributeError

/-- Total key lookup on a JSON value: some v when the value is an object
holding the key, none otherwise.  Used only to state theorems. -/
def Json.lookup (j : Json) (k : String) : Option Json :=
  match j with
  | .obj kvs => (kvs.find? (fun kv => kv.1 == k)).map (fun kv => kv.2)
  | _ => none

/-- Whether an Except value is a normal return. -/
def isOkB {ε α : Type} : Except ε α → Bool
  | .ok _ => true
  | .error _ => false

/-!  Response-text extraction, src/llm.py.

Each extractor is translated line by line; a return statement becomes
Except.ok, and the one unguarded attribute access in the OpenAI-compatible
and Gemini extractors (choices[0].get / cands[0].get, reached when the
first list element is not a dict) surfaces as Except.error.  -/

/-- src/llm.py extract_openai_chat_text: expected shape
choices[0].message.content.  choices[0].get("message") is called without
checking that choices[0] is a dict. -/
def extract_openai_chat_text (chat_json : Json) : Except PyErr (Option String) :=
  match chat_json with
  | .obj kvs =>
    match objGet kvs "choices" with
    | .arr (c :: _) =>
      match c.attrGet "message" with
      | .error e => .error e
      | .ok msg =>
        match msg with
        | .obj mkvs =>
          match objGet mkvs "content" with
          | .str s => .ok (some s)
          | _ => .ok none
        | _ => .ok none
    | _ => .ok none
  | _ => .ok none

/-- src/llm.py anthropic_extract_text: expected shape content[0].text.
Every access is guarded by an isinstance check, so no branch can raise. -/
def anthropic_extract_text (msg_json : Json) : Except PyErr (Option String) :=
  match msg_json with
  | .obj kvs =>
    match objGet kvs "content" with
    | .arr (first :: _) =>
      match first with
      | .obj fkvs =>
        match objGet fkvs "text" with
        | .str s => .ok (some s)
        | _ => .ok none
      | _ => .ok none
    | _ => .ok none
  | _ => .ok none

/-- src/llm.py gemini_extract_text: expected shape
candidates[0].content.parts[0].text.  cands[0].get("content") is called
without checking that cands[0] is a dict; parts[0] is guarded. -/
def gemini_extract_text (resp_json : Json) : Except PyErr (Option String) :=
  match resp_json with
  | .obj kvs =>
    match objGet kvs "candidates" with
    | .arr (c :: _) =>
      match c.attrGet "content" with
      | .error e => .error e
      | .ok content =>
        match content with
        | .obj ckvs =>
          match objGet ckvs "parts" with
          | .arr (p :: _) =>
            match p with
            | .obj pkvs =>
              match objGet pkvs "text" with
              | .str s => .ok (some s)
              | _ => .ok none
            | _ => .ok none
          | _ => .ok none
        | _ => .ok none
    | _ => .ok none
  | _ => .ok none

/-!  Model selection, src/llm.py.

pick_model_from_openai_models / anthropic_pick_model / gemini_pick_model
share one loop shape: for p in prefer: for mid in ids: if p in mid.lower():
return mid; return ids[0].  The loop is embedded once (pickFromIds) over
the preference list, which each source function fixes to a constant. -/

/-- Python substring test: needle in hay, on character lists. -/
def charsContain (hay needle : List Char) : Bool :=
  match hay with
  | [] => needle.isEmpty
  | c :: t => needle.isPrefixOf (c :: t) || charsContain t needle

/-- Python needle in hay for strings. -/
def strContains (hay needle : String) : Bool :=
  charsContain hay.toList needle.toList

/-- Python str.lower() (ASCII case folding, which covers every identifier
this layer handles): each character lowercased. -/
def lowerStr (s : String) : String := ⟨s.data.map Char.toLower⟩

/-- The shared selection loop of the three pick functions: first preference
substring, in order, that occurs in some identifier lowercased; the first
such identifier in catalog order; the first identifier when nothing
matches.  Note the source lowercases only the identifier (mid.lower()),
never the preference substring. -/
def pickFromIds (prefer ids : List String) : Option String :=
  match prefer with
  | [] => ids.head?
  | p :: ps =>
    match ids.find? (fun mid => strContains (lowerStr mid) p) with
    | some mid => some mid
    | none => pickFromIds ps ids

/-- Preference order of src/llm.py pick_model_from_openai_models. -/
def openaiPrefer : List String :=
  ["gpt", "llama", "qwen", "deepseek", "mistral", "mixtral", "instruct", "sonar", "grok"]

/-- Preference order of src/llm.py anthropic_pick_model. -/
def anthropicPrefer : List String := ["sonnet", "opus", "haiku", "claude"]

/-- Preference order of src/llm.py gemini_pick_model. -/
def geminiPrefer : List String := ["gemini-2", "gemini-1.5", "pro", "flash"]

/-- The identifier list a pick function builds from the listing response:
[m.get(key) for m in data if isinstance(m, dict) and isinstance(m.get(key), str)]. -/
def ids_of_data (data : List Json) (key : String) : List String :=
  data.filterMap (fun m =>
    match m with
    | .obj kvs =>
      match objGet kvs key with
      | .str s => some s
      | _ => none
    | _ => none)

/-- src/llm.py pick_model_from_openai_models. -/
def pick_model_from_openai_models (models_json : Json) : Option String :=
  match models_json with
  | .obj kvs =>
    match objGet kvs "data" with
    | .arr [] => none
    | .arr data =>
      let ids := ids_of_data data "id"
      if ids.isEmpty then none else pickFromIds openaiPrefer ids
    | _ => none
  | _ => none

/-- src/llm.py anthropic_pick_model. -/
def anthropic_pick_model (models_json : Json) : Option String :=
  match models_json with
  | .obj kvs =>
    match objGet kvs "data" with
    | .arr [] => none
    | .arr data =>
      let ids := ids_of_data data "id"
      if ids.isEmpty then none else pickFromIds anthropicPrefer ids
    | _ => none
  | _ => none

/-- src/llm.py gemini_pick_model. -/
def gemini_pick_model (models_json : Json) : Option String :=
  match models_json with
  | .obj kvs =>
    match objGet kvs "models" with
    | .arr [] => none
    | .arr models =>
      let names := ids_of_data models "name"
      if names.isEmpty then none else pickFromIds geminiPrefer names
    | _ => none
  | _ => none

/-- The selection heuristic as the spec words it, for comparison with the
source's pickFromIds: iterate the ordered substrings; for each, return the
first catalog entry whose identifier contains it case-insensitively (both
sides folded); otherwise the first entry. -/
def selectModelSpec (prefer catalog : List String) : Option String :=
  match prefer with
  | [] => catalog.head?
  | p :: ps =>
    match catalog.find? (fun mid => strContains (lowerStr mid) (lowerStr p)) with
    | some mid => some mid
    | none => selectModelSpec ps catalog

/-!  URL building, src/llm.py.

Every endpoint URL is base_url.rstrip("/") plus a fixed path. -/

/-- Python s.rstrip("/"): remove every trailing '/' character. -/
def rstripSlash (s : String) : String :=
  ⟨(s.data.reverse.dropWhile (fun c => c == '/')).reverse⟩

/-- A string of n '/' characters, for stating trailing-slash invariance. -/
def slashes (n : Nat) : String := ⟨List.replicate n '/'⟩

/-- src/llm.py openai_compat_list_models: GET {base}/models. -/
def openai_compat_list_models_url (base_url : String) : String :=
  rstripSlash base_url ++ "/models"

/-- src/llm.py openai_compat_chat: POST {base}/chat/completions. -/
def openai_compat_chat_url (base_url : String) : String :=
  rstripSlash base_url ++ "/chat/completions"

/-- src/llm.py anthropic_list_models: GET {base}/v1/models. -/
def anthropic_list_models_url (base_url : String) : String :=
  rstripSlash base_url ++ "/v1/models"

/-- src/llm.py anthropic_chat: POST {base}/v1/messages. -/
def anthropic_chat_url (base_url : String) : String :=
  rstripSlash base_url ++ "/v1/messages"

/-- src/llm.py gemini_list_models: GET {base}/v1beta/models. -/
def gemini_list_models_url (base_url : String) : String :=
  rstripSlash base_url ++ "/v1beta/models"

/-- src/llm.py gemini_chat model-name normalization:
model_name.split("/", 1)[1] if model_name.startswith("models/") else
model_name; splitting a "models/"-prefixed name once at "/" and keeping the
second part is dropping the 7 characters of "models/". -/
def gemini_model_short (model_name : String) : String :=
  if "models/".data.isPrefixOf model_name.data then ⟨model_name.data.drop 7⟩
  else model_name

/-- src/llm.py gemini_chat: POST {base}/v1beta/models/{short}:generateContent. -/
def gemini_chat_url (base_url model_name : String) : String :=
  rstripSlash base_url ++ "/v1beta/models/" ++ gemini_model_short model_name
    ++ ":generateContent"

/-!  Header building, src/llm.py.

Python dict insertion h[k] = v updates the value in place when the key is
present and appends the pair otherwise; headers are modelled as
association lists with that insertion. -/

/-- Python dict assignment d[k] = v on an association list. -/
def dictInsert (d : List (String × String)) (k v : String) :
    List (String × String) :=
  if d.any (fun kv => kv.1 == k) then
    d.map (fun kv => if kv.1 == k then (k, v) else kv)
  else d ++ [(k, v)]

/-- Whether a header mapping holds the key. -/
def hasKey (h : List (String × String)) (k : String) : Bool :=
  h.any (fun kv => kv.1 == k)

/-- src/llm.py build_openai_compat_headers: Accept and Content-Type always;
Authorization: Bearer only when api_key is truthy (present and non-empty);
extra headers only when their value is truthy.  A Python extra of None and
an empty dict both become the empty list here. -/
def build_openai_compat_headers (api_key : Option String)
    (extra : List (String × String)) : List (String × String) :=
  let h := [("Accept", "application/json"), ("Content-Type", "application/json")]
  let h := match api_key with
    | some k => if k = "" then h else dictInsert h "Authorization" ("Bearer " ++ k)
    | none => h
  extra.foldl (fun acc kv => if kv.2 = "" then acc else dictInsert acc kv.1 kv.2) h

/-- src/llm.py anthropic_headers. -/
def anthropic_headers (api_key anthropic_version : String) :
    List (String × String) :=
  [("Accept", "application/json"), ("Content-Type", "application/json"),
   ("x-api-key", api_key), ("anthropic-version", anthropic_version)]

/-!  Wire request bodies. -/

/-- src/llm.py openai_compat_chat payload. -/
def openai_compat_chat_payload (model prompt : String) (max_tokens : ℤ) : Json :=
  .obj [("model", .str model),
        ("messages", .arr [.obj [("role", .str "user"), ("content", .str prompt)]]),
        ("temperature", .num 0),
        ("max_tokens", .num max_tokens)]

/-- src/llm.py anthropic_chat payload; note it carries no temperature field. -/
def anthropic_chat_payload (model prompt : String) (max_tokens : ℤ) : Json :=
  .obj [("model", .str model),
        ("max_tokens", .num max_tokens),
        ("messages", .arr [.obj [("role", .str "user"), ("content", .str prompt)]])]

/-- src/llm.py gemini_chat payload. -/
def gemini_chat_payload (prompt : String) (max_tokens : ℤ) : Json :=
  .obj [("contents", .arr [.obj [("role", .str "user"),
                                 ("parts", .arr [.obj [("text", .str prompt)]])]]),
        ("generationConfig", .obj [("maxOutputTokens", .num max_tokens),
                                   ("temperature", .num 0)])]

/-- src/gitai.py call_ai: the keyword arguments of
client.chat.completions.create, which the OpenAI SDK serializes as the
wire body; temperature is 0.3 there, not 0. -/
def call_ai_request_body (model system_prompt user_prompt : String)
    (max_tokens : ℤ) : Json :=
  .obj [("model", .str model),
        ("messages", .arr [.obj [("role", .str "system"), ("content", .str system_prompt)],
                           .obj [("role", .str "user"), ("content", .str user_prompt)]]),
        ("max_tokens", .num max_tokens),
        ("temperature", .num (3 / 10))]

/-!  Outgoing HTTP requests and the three provider branches of main(),
src/llm.py.

Each branch is embedded as a function from the environment, the provider
configuration fields, the parsed command-line arguments and the two JSON
bodies the provider would return with status 200, to the list of requests
issued and the final outcome.  die() is sys.exit(1); an uncaught Python
exception is Outcome.crashed.  Non-200 responses also call die() in the
source; the flows here model the 200 regime the claims are about, so the
response bodies are parameters. -/

/-- One outgoing HTTP request: the explicit headers passed to requests.get
or requests.post, the query params, whether the body was passed with the
json= keyword (in which case the requests library itself adds
Content-Type: application/json), and the JSON payload if any.
Library-default headers (such as Accept: */*) are not modelled; an
application/json Accept header is present only when set explicitly. -/
structure HttpReq where
  method : String
  url : String
  headers : List (String × String)
  params : List (String × String)
  jsonKw : Bool
  body : Option Json
deriving Repr

/-- The header mapping actually sent: the explicit headers, plus the
Content-Type the requests library adds for a json= body. -/
def sentHeaders (r : HttpReq) : List (String × String) :=
  if r.jsonKw then dictInsert r.headers "Content-Type" "application/json"
  else r.headers

/-- How an invocation of main() ends. -/
inductive Outcome where
  | exited : ℤ → Outcome
  | finished : Outcome
  | crashed : PyErr → Outcome
deriving Repr, DecidableEq

/-- What one run of a provider branch of main() produces: the requests
issued in order, the extracted reply text (the variable printed on the
Reply line), whether the no-text-parsed marker was printed, and the
outcome.  finished is a normal return, exit status 0. -/
structure RunResult where
  requests : List HttpReq
  reply : Option String
  noTextMarker : Bool
  outcome : Outcome
deriving Repr

/-- The process environment: os.environ.get as a partial map. -/
def EnvMap : Type := String → Option String

/-- api_key = os.environ.get(key_env) if key_env else None. -/
def env_api_key (env : EnvMap) (keyEnv : Option String) : Option String :=
  match keyEnv with
  | some k => env k
  | none => none

/-- if key_env and not api_key: the Python truthiness test that triggers
the missing-credential exit (variable unset or set to the empty string). -/
def missing_key (env : EnvMap) (keyEnv : Option String) : Bool :=
  match keyEnv with
  | none => false
  | some k =>
    match env k with
    | none => true
    | some v => v == ""

/-- Python a or b on optional strings: b when a is None or empty. -/
def py_or (a b : Option String) : Option String :=
  match a with
  | some s => if s = "" then b else some s
  | none => b

/-- The GET {base}/models request of openai_compat_list_models. -/
def openaiListReq (base : String) (headers : List (String × String)) : HttpReq :=
  { method := "GET", url := openai_compat_list_models_url base,
    headers := headers, params := [], jsonKw := false, body := none }

/-- The POST {base}/chat/completions request of openai_compat_chat (body
passed as data=json.dumps(payload), headers already carry Content-Type). -/
def openaiChatReq (base : String) (headers : List (String × String))
    (model prompt : String) (max_tokens : ℤ) : HttpReq :=
  { method := "POST", url := openai_compat_chat_url base,
    headers := headers, params := [], jsonKw := false,
    body := some (openai_compat_chat_payload model prompt max_tokens) }

/-- The GET {base}/v1/models request of anthropic_list_models. -/
def anthropicListReq (base : String) (headers : List (String × String)) : HttpReq :=
  { method := "GET", url := anthropic_list_models_url base,
    headers := headers, params := [], jsonKw := false, body := none }

/-- The POST {base}/v1/messages request of anthropic_chat. -/
def anthropicChatReq (base : String) (headers : List (String × String))
    (model prompt : String) (max_tokens : ℤ) : HttpReq :=
  { method := "POST", url := anthropic_chat_url base,
    headers := headers, params := [], jsonKw := false,
    body := some (anthropic_chat_payload model prompt max_tokens) }

/-- The GET {base}/v1beta/models request of gemini_list_models: no headers
argument at all, credential in the key query parameter. -/
def geminiListReq (base api_key : String) : HttpReq :=
  { method := "GET", url := gemini_list_models_url base,
    headers := [], params := [("key", api_key)], jsonKw := false, body := none }

/-- The POST generateContent request of gemini_chat: no headers argument,
body passed with json=payload, credential in the key query parameter. -/
def geminiChatReq (base api_key model_name prompt : String)
    (max_tokens : ℤ) : HttpReq :=
  { method := "POST", url := gemini_chat_url base model_name,
    headers := [], params := [("key", api_key)], jsonKw := true,
    body := some (gemini_chat_payload prompt max_tokens) }

/-- The openai_compat branch of main(), src/llm.py lines 318-352. -/
def main_openai_compat (env : EnvMap) (base : String) (keyEnv : Option String)
    (extra : List (String × String)) (argsList : Bool) (argsModel : Option String)
    (prompt : String) (maxTokens : ℤ) (raw : Bool)
    (modelsBody chatBody : Json) : RunResult :=
  let apiKey := env_api_key env keyEnv
  if missing_key env keyEnv then
    { requests := [], reply := none, noTextMarker := false, outcome := .exited 1 }
  else
    let headers := build_openai_compat_headers apiKey extra
    let listReq := openaiListReq base headers
    if argsList then
      { requests := [listReq], reply := none, noTextMarker := false, outcome := .finished }
    else
      match py_or argsModel (pick_model_from_openai_models modelsBody) with
      | none =>
        { requests := [listReq], reply := none, noTextMarker := false, outcome := .exited 1 }
      | some model =>
        if model = "" then
          { requests := [listReq], reply := none, noTextMarker := false, outcome := .exited 1 }
        else
          let chatReq := openaiChatReq base headers model prompt maxTokens
          match extract_openai_chat_text chatBody with
          | .error e =>
            { requests := [listReq, chatReq], reply := none, noTextMarker := false,
              outcome := .crashed e }
          | .ok t =>
            { requests := [listReq, chatReq], reply := t,
              noTextMarker := !raw && t.isNone, outcome := .finished }

/-- The anthropic branch of main(), src/llm.py lines 357-391. -/
def main_anthropic (env : EnvMap) (base keyEnv anthropicVersion : String)
    (argsList : Bool) (argsModel : Option String) (prompt : String)
    (maxTokens : ℤ) (raw : Bool) (modelsBody chatBody : Json) : RunResult :=
  match env keyEnv with
  | none => { requests := [], reply := none, noTextMarker := false, outcome := .exited 1 }
  | some k =>
    if k = "" then
      { requests := [], reply := none, noTextMarker := false, outcome := .exited 1 }
    else
      let headers := anthropic_headers k anthropicVersion
      let listReq := anthropicListReq base headers
      if argsList then
        { requests := [listReq], reply := none, noTextMarker := false, outcome := .finished }
      else
        match py_or argsModel (anthropic_pick_model modelsBody) with
        | none =>
          { requests := [listReq], reply := none, noTextMarker := false, outcome := .exited 1 }
        | some model =>
          if model = "" then
            { requests := [listReq], reply := none, noTextMarker := false, outcome := .exited 1 }
          else
            let chatReq := anthropicChatReq base headers model prompt maxTokens
            match anthropic_extract_text chatBody with
            | .error e =>
              { requests := [listReq, chatReq], reply := none, noTextMarker := false,
                outcome := .crashed e }
            | .ok t =>
              { requests := [listReq, chatReq], reply := t,
                noTextMarker := !raw && t.isNone, outcome := .finished }

/-- The gemini branch of main(), src/llm.py lines 396-428. -/
def main_gemini (env : EnvMap) (base keyEnv : String)
    (argsList : Bool) (argsModel : Option String) (prompt : String)
    (maxTokens : ℤ) (raw : Bool) (modelsBody chatBody : Json) : RunResult :=
  match env keyEnv with
  | none => { requests := [], reply := none, noTextMarker := false, outcome := .exited 1 }
  | some k =>
    if k = "" then
      { requests := [], reply := none, noTextMarker := false, outcome := .exited 1 }
    else
      let listReq := geminiListReq base k
      if argsList then
        { requests := [listReq], reply := none, noTextMarker := false, outcome := .finished }
      else
        match py_or argsModel (gemini_pick_model modelsBody) with
        | none =>
          { requests := [listReq], reply := none, noTextMarker := false, outcome := .exited 1 }
        | some model =>
          if model = "" then
            { requests := [listReq], reply := none, noTextMarker := false, outcome := .exited 1 }
          else
            let chatReq := geminiChatReq base k model prompt maxTokens
            match gemini_extract_text chatBody with
            | .error e =>
              { requests := [listReq, chatReq], reply := none, noTextMarker := false,
                outcome := .crashed e }
            | .ok t =>
              { requests := [listReq, chatReq], reply := t,
                noTextMarker := !raw && t.isNone, outcome := .finished }

/-!  The provider registry, src/llm.py PROVIDERS.

openrouter's extra headers, ollama's base URL and claude's protocol
version read the environment when the module loads, so the registry is a
function of the environment. -/

/-- The fields of one PROVIDERS entry that the flows consume. -/
structure ProviderCfg where
  ptype : String
  base_url : String
  api_key_env : Option String
  extra_headers : List (String × String)
  anthropic_version : Option String
deriving Repr, DecidableEq

/-- src/llm.py PROVIDERS. -/
def PROVIDERS (env : EnvMap) : List (String × ProviderCfg) :=
  [("openai", { ptype := "openai_compat", base_url := "https://api.openai.com/v1",
                api_key_env := some "OPENAI_API_KEY", extra_headers := [],
                anthropic_version := none }),
   ("xai", { ptype := "openai_compat", base_url := "https://api.x.ai/v1",
             api_key_env := some "XAI_API_KEY", extra_headers := [],
             anthropic_version := none }),
   ("mistral", { ptype := "openai_compat", base_url := "https://api.mistral.ai/v1",
                 api_key_env := some "MISTRAL_API_KEY", extra_headers := [],
                 anthropic_version := none }),
   ("groq", { ptype := "openai_compat", base_url := "https://api.groq.com/openai/v1",
              api_key_env := some "GROQ_API_KEY", extra_headers := [],
              anthropic_version := none }),
   ("together", { ptype := "openai_compat", base_url := "https://api.together.xyz/v1",
                  api_key_env := some "TOGETHER_API_KEY", extra_headers := [],
                  anthropic_version := none }),
   ("deepinfra", { ptype := "openai_compat", base_url := "https://api.deepinfra.com/v1/openai",
                   api_key_env := some "DEEPINFRA_API_KEY", extra_headers := [],
                   anthropic_version := none }),
   ("openrouter", { ptype := "openai_compat", base_url := "https://openrouter.ai/api/v1",
                    api_key_env := some "OPENROUTER_API_KEY",
                    extra_headers :=
                      [("HTTP-Referer", (env "OPENROUTER_HTTP_REFERER").getD ""),
                       ("X-Title", (env "OPENROUTER_X_TITLE").getD "gitar-llm-test")],
                    anthropic_version := none }),
   ("ollama", { ptype := "openai_compat",
                base_url := (env "OLLAMA_BASE_URL").getD "http://localhost:11434/v1",
                api_key_env := none, extra_headers := [],
                anthropic_version := none }),
   ("claude", { ptype := "anthropic", base_url := "https://api.anthropic.com",
                api_key_env := some "ANTHROPIC_API_KEY", extra_headers := [],
                anthropic_version := some ((env "ANTHROPIC_VERSION").getD "2023-06-01") }),
   ("gemini", { ptype := "gemini", base_url := "https://generativelanguage.googleapis.com",
                api_key_env := some "GEMINI_API_KEY", extra_headers := [],
                anthropic_version := none })]

/-- The header mapping main() builds for a provider before its first
request: build_openai_compat_headers for the openai_compat branch,
anthropic_headers (with cfg.get("anthropic_version", "2023-06-01")) for
the anthropic branch, and none at all for the gemini branch. -/
def providerHeaders (cfg : ProviderCfg) (apiKey : Option String) :
    List (String × String) :=
  if cfg.ptype = "openai_compat" then
    build_openai_compat_headers apiKey cfg.extra_headers
  else if cfg.ptype = "anthropic" then
    anthropic_headers (apiKey.getD "") (cfg.anthropic_version.getD "2023-06-01")
  else []

/-!  Retry with backoff, src/gitai.py call_ai.

The loop for attempt in range(max_retries) is embedded with the remaining
iteration count as fuel and the attempt index carried along; each
attempt's result (a parsed response, a RateLimitError, or any other
exception) is a parameter indexed by attempt.  The function returns the
list of sleep durations in seconds and the value call_ai returns. -/

/-- What one client.chat.completions.create attempt does: return content
(response.choices[0].message.content), raise RateLimitError, or raise some
other exception. -/
inductive AttemptResult where
  | success : String → AttemptResult
  | rateLimited : AttemptResult
  | apiError : AttemptResult
deriving Repr, DecidableEq

/-- The retry loop body of call_ai: on success return content.strip(); on
RateLimitError sleep 2^attempt * 5 and continue; on any other error print
and return None; after the last attempt return None. -/
def call_ai_go (outcome : Nat → AttemptResult) (attempt fuel : Nat) :
    List Nat × Option String :=
  match fuel with
  | 0 => ([], none)
  | fuel' + 1 =>
    match outcome attempt with
    | .success content => ([], some content.trim)
    | .apiError => ([], none)
    | .rateLimited =>
      let wait := 2 ^ attempt * 5
      let r := call_ai_go outcome (attempt + 1) fuel'
      (wait :: r.1, r.2)

/-- src/gitai.py call_ai with max_retries attempts (the source fixes it at
3): the sleeps performed and the returned value. -/
def call_ai (outcome : Nat → AttemptResult) (max_retries : Nat) :
    List Nat × Option String :=
  call_ai_go outcome 0 max_retries

/-- The source's selection loop agrees with the spec's case-insensitive
description as soon as the preference substring is already lowercase. -/
theorem pickFromIds_eq_selectModelSpec (prefer ids : List String)
    (h : ∀ p ∈ prefer, lowerStr p = p) :
    pickFromIds prefer ids = selectModelSpec prefer ids := by
  induction prefer with
  | nil => rfl
  | cons p ps ih =>
    have hp : lowerStr p = p := h p (List.mem_cons_self p ps)
    have hps : ∀ q ∈ ps, lowerStr q = q := fun q hq => h q (List.mem_cons_of_mem p hq)
    unfold pickFromIds selectModelSpec
    rw [hp, ih hps]

/-- Claim C1: the claim states that for every protocol family the
response-text extraction function never raises, degrading to absent text
on any malformed body.  This theorem records the actual behaviour: the
OpenAI-compatible and Gemini extractors raise AttributeError when the
first element of the choices/candidates list is not an object (here the
number 42), while the Anthropic extractor is total.  The claim describes
the evident intent of the code (every other access is isinstance-guarded),
so the unguarded first-element access is a code bug. -/
theorem c1_extract_text_raises :
    extract_openai_chat_text (Json.obj [("choices", Json.arr [Json.num 42])])
      = Except.error PyErr.attributeError
    ∧ gemini_extract_text (Json.obj [("candidates", Json.arr [Json.num 42])])
      = Except.error PyErr.attributeError
    ∧ ∀ j : Json, isOkB (anthropic_extract_text j) = true := by
  refine ⟨rfl, rfl, ?_⟩
  intro j
  unfold anthropic_extract_text
  split
  · split
    · split
      · split <;> rfl
      · rfl
    · rfl
  · rfl

/-- Claim C2 counterexample: the claim describes matching as case-insensitive
for every ordered preference list, but the source lowercases only the
identifier, not the preference substring.  With preference list ["GPT"] and
catalog ["abc", "gpt-4o"], case-insensitive matching selects "gpt-4o" while
the source's loop matches nothing and falls back to the first entry "abc". -/
theorem c2_case_sensitivity_counterexample :
    pickFromIds ["GPT"] ["abc", "gpt-4o"] = some "abc"
    ∧ selectModelSpec ["GPT"] ["abc", "gpt-4o"] = some "gpt-4o"
    ∧ pickFromIds ["GPT"] ["abc", "gpt-4o"] ≠ selectModelSpec ["GPT"] ["abc", "gpt-4o"] :=
  ⟨by decide, by decide, by decide⟩

/-- Claim C2 (amended): selection is deterministic and iterates the
preference substrings in priority order, returning the first catalog entry
whose lowercased identifier contains the substring verbatim, falling back
to the first entry; this coincides with the claimed case-insensitive
matching whenever every preference substring is lowercase, which holds for
all built-in preference lists.  The claim's two concrete examples hold. -/
theorem c2_select_model (prefer ids : List String)
    (h : ∀ p ∈ prefer, lowerStr p = p) :
    pickFromIds prefer ids = selectModelSpec prefer ids
    ∧ (∀ p ∈ openaiPrefer, lowerStr p = p)
    ∧ (∀ p ∈ anthropicPrefer, lowerStr p = p)
    ∧ (∀ p ∈ geminiPrefer, lowerStr p = p)
    ∧ pick_model_from_openai_models (Json.obj [("data", Json.arr
        [Json.obj [("id", Json.str "llama-3-8b")],
         Json.obj [("id", Json.str "gpt-4o")],
         Json.obj [("id", Json.str "mixtral-8x7b")]])]) = some "gpt-4o"
    ∧ pick_model_from_openai_models (Json.obj [("data", Json.arr
        [Json.obj [("id", Json.str "foo-1")],
         Json.obj [("id", Json.str "bar-2")]])]) = some "foo-1" :=
  ⟨pickFromIds_eq_selectModelSpec prefer ids h,
   by decide, by decide, by decide, by decide, by decide⟩

/-- Claim C2 witness: the amended theorem applied to the preference list
["gpt"] and the catalog ["llama-3-8b", "gpt-4o"]. -/
theorem c2_select_model_witness :
    pickFromIds ["gpt"] ["llama-3-8b", "gpt-4o"]
      = selectModelSpec ["gpt"] ["llama-3-8b", "gpt-4o"]
    ∧ (∀ p ∈ openaiPrefer, lowerStr p = p)
    ∧ (∀ p ∈ anthropicPrefer, lowerStr p = p)
    ∧ (∀ p ∈ geminiPrefer, lowerStr p = p)
    ∧ pick_model_from_openai_models (Json.obj [("data", Json.arr
        [Json.obj [("id", Json.str "llama-3-8b")],
         Json.obj [("id", Json.str "gpt-4o")],
         Json.obj [("id", Json.str "mixtral-8x7b")]])]) = some "gpt-4o"
    ∧ pick_model_from_openai_models (Json.obj [("data", Json.arr
        [Json.obj [("id", Json.str "foo-1")],
         Json.obj [("id", Json.str "bar-2")]])]) = some "foo-1" :=
  c2_select_model ["gpt"] ["llama-3-8b", "gpt-4o"] (by decide)

/-- Claim C4 counterexample: with every attempt rate-limited, call_ai
sleeps 5, 10, 20 seconds (2^attempt * 5 at attempt indices 0, 1, 2), not
the 10, 20, 40 seconds the claim derives from attempt indices 1, 2, 3. -/
theorem c4_backoff_counterexample :
    call_ai (fun _ => AttemptResult.rateLimited) 3 = ([5, 10, 20], none)
    ∧ ([5, 10, 20] : List Nat) ≠ [10, 20, 40] :=
  ⟨rfl, by decide⟩

/-- Claim C4 (amended): when every attempt of an invocation fails as
rate-limiting, the caller sleeps 2^attempt * 5 seconds at attempt indices
0, 1, 2 — 5s, 10s, 20s — and after exhausting the 3 attempts returns the
failure value None; a single rate-limited attempt followed by a success
yields exactly one retry (one 5-second sleep) and the successful
response's stripped content. -/
theorem c4_retry_backoff :
    (∀ outcome : Nat → AttemptResult,
      outcome 0 = .rateLimited → outcome 1 = .rateLimited → outcome 2 = .rateLimited →
      call_ai outcome 3 = ([5, 10, 20], none))
    ∧ (∀ (outcome : Nat → AttemptResult) (t : String),
      outcome 0 = .rateLimited → outcome 1 = .success t →
      call_ai outcome 3 = ([5], some t.trim)) := by
  constructor
  · intro o h0 h1 h2
    simp [call_ai, call_ai_go, h0, h1, h2]
  · intro o t h0 h1
    simp [call_ai, call_ai_go, h0, h1]

/-- Claim C5 counterexample: the Anthropic wire body carries no
temperature field at all, and the gitai orchestrator's request fixes
temperature at 0.3, not 0. -/
theorem c5_temperature_counterexample :
    Json.lookup (anthropic_chat_payload "claude-sonnet" "hi" 64) "temperature" = none
    ∧ Json.lookup (call_ai_request_body "gpt-4o" "sys" "usr" 500) "temperature"
        = some (Json.num (3 / 10))
    ∧ (3 / 10 : ℚ) ≠ 0 :=
  ⟨rfl, rfl, by norm_num⟩

/-- Claim C5 (amended): the OpenAI-compatible chat body and the Gemini
generationConfig fix temperature at 0; the Anthropic body carries no
temperature field; the gitai orchestrator's request body fixes temperature
at 0.3. -/
theorem c5_temperature (model prompt sys usr : String) (maxT : ℤ) :
    Json.lookup (openai_compat_chat_payload model prompt maxT) "temperature"
      = some (Json.num 0)
    ∧ Json.lookup (gemini_chat_payload prompt maxT) "generationConfig"
      = some (Json.obj [("maxOutputTokens", Json.num maxT), ("temperature", Json.num 0)])
    ∧ Json.lookup (anthropic_chat_payload model prompt maxT) "temperature" = none
    ∧ Json.lookup (call_ai_request_body model sys usr maxT) "temperature"
      = some (Json.num (3 / 10)) :=
  ⟨rfl, rfl, rfl, rfl⟩

/-- Claim C7: the claim states that a 200 response whose body does not
match the expected schema still yields a successful invocation (exit 0,
no-text marker).  That holds for bodies on which extraction merely finds
no text (second and third conjuncts, body an empty object), but a 200 body
whose first choices element is not an object crashes the process with an
uncaught AttributeError instead (first conjunct), so the claim's universal
statement fails on the code. -/
theorem c7_parse_crash :
    (main_openai_compat (fun _ => some "sk-test") "https://api.openai.com/v1"
        (some "OPENAI_API_KEY") [] false (some "gpt-4o") "Reply with exactly: OK" 64 false
        (Json.obj []) (Json.obj [("choices", Json.arr [Json.num 42])])).outcome
      = Outcome.crashed PyErr.attributeError
    ∧ (main_openai_compat (fun _ => some "sk-test") "https://api.openai.com/v1"
        (some "OPENAI_API_KEY") [] false (some "gpt-4o") "Reply with exactly: OK" 64 false
        (Json.obj []) (Json.obj [])).outcome = Outcome.finished
    ∧ (main_openai_compat (fun _ => some "sk-test") "https://api.openai.com/v1"
        (some "OPENAI_API_KEY") [] false (some "gpt-4o") "Reply with exactly: OK" 64 false
        (Json.obj []) (Json.obj [])).reply = none
    ∧ (main_openai_compat (fun _ => some "sk-test") "https://api.openai.com/v1"
        (some "OPENAI_API_KEY") [] false (some "gpt-4o") "Reply with exactly: OK" 64 false
        (Json.obj []) (Json.obj [])).noTextMarker = true :=
  ⟨rfl, rfl, rfl, rfl⟩

/-- Claim C3 counterexample: with an explicit model supplied
(args.model = "gpt-4o"), the openai branch of main() still issues the GET
{base}/models listing request before the chat request, so discovery is not
bypassed. -/
theorem c3_listing_always_issued :
    ((main_openai_compat (fun _ => some "sk-test") "https://api.openai.com/v1"
        (some "OPENAI_API_KEY") [] false (some "gpt-4o") "Reply with exactly: OK" 64 false
        (Json.obj []) (Json.obj [])).requests).map HttpReq.url
      = ["https://api.openai.com/v1/models",
         "https://api.openai.com/v1/chat/completions"]
    ∧ ((main_openai_compat (fun _ => some "sk-test") "https://api.openai.com/v1"
        (some "OPENAI_API_KEY") [] false (some "gpt-4o") "Reply with exactly: OK" 64 false
        (Json.obj []) (Json.obj [])).requests).map HttpReq.method = ["GET", "POST"] :=
  ⟨rfl, rfl⟩

/-- Claim C3 (amended): an explicitly supplied model identifier bypasses
selection — the chat request uses the explicit model and the request trace
does not depend on the listing response — but not discovery: every branch
of main() issues the model-listing request before the chat request. -/
theorem c3_explicit_model :
    (∀ (env : EnvMap) (base : String) (keyEnv : Option String)
        (extra : List (String × String)) (m prompt : String) (maxT : ℤ) (raw : Bool)
        (mb mb' cb : Json),
      missing_key env keyEnv = false → m ≠ "" →
      (main_openai_compat env base keyEnv extra false (some m) prompt maxT raw mb cb).requests
        = [openaiListReq base (build_openai_compat_headers (env_api_key env keyEnv) extra),
           openaiChatReq base (build_openai_compat_headers (env_api_key env keyEnv) extra)
             m prompt maxT]
      ∧ (main_openai_compat env base keyEnv extra false (some m) prompt maxT raw mb cb).requests
        = (main_openai_compat env base keyEnv extra false (some m) prompt maxT raw mb' cb).requests)
    ∧ (∀ (env : EnvMap) (base keyEnv ver k m prompt : String) (maxT : ℤ) (raw : Bool)
        (mb mb' cb : Json),
      env keyEnv = some k → k ≠ "" → m ≠ "" →
      (main_anthropic env base keyEnv ver false (some m) prompt maxT raw mb cb).requests
        = [anthropicListReq base (anthropic_headers k ver),
           anthropicChatReq base (anthropic_headers k ver) m prompt maxT]
      ∧ (main_anthropic env base keyEnv ver false (some m) prompt maxT raw mb cb).requests
        = (main_anthropic env base keyEnv ver false (some m) prompt maxT raw mb' cb).requests)
    ∧ (∀ (env : EnvMap) (base keyEnv k m prompt : String) (maxT : ℤ) (raw : Bool)
        (mb mb' cb : Json),
      env keyEnv = some k → k ≠ "" → m ≠ "" →
      (main_gemini env base keyEnv false (some m) prompt maxT raw mb cb).requests
        = [geminiListReq base k, geminiChatReq base k m prompt maxT]
      ∧ (main_gemini env base keyEnv false (some m) prompt maxT raw mb cb).requests
        = (main_gemini env base keyEnv false (some m) prompt maxT raw mb' cb).requests) := by
  refine ⟨?_, ?_, ?_⟩
  · intro env base keyEnv extra m prompt maxT raw mb mb' cb hmk hm
    have hreq : ∀ mbody : Json,
        (main_openai_compat env base keyEnv extra false (some m) prompt maxT raw mbody cb).requests
          = [openaiListReq base (build_openai_compat_headers (env_api_key env keyEnv) extra),
             openaiChatReq base (build_openai_compat_headers (env_api_key env keyEnv) extra)
               m prompt maxT] := by
      intro mbody
      unfold main_openai_compat
      rw [hmk]
      cases hx : extract_openai_chat_text cb <;> simp [py_or, hm, hx]
    exact ⟨hreq mb, (hreq mb).trans (hreq mb').symm⟩
  · intro env base keyEnv ver k m prompt maxT raw mb mb' cb hk hke hm
    have hreq : ∀ mbody : Json,
        (main_anthropic env base keyEnv ver false (some m) prompt maxT raw mbody cb).requests
          = [anthropicListReq base (anthropic_headers k ver),
             anthropicChatReq base (anthropic_headers k ver) m prompt maxT] := by
      intro mbody
      unfold main_anthropic
      rw [hk]
      cases hx : anthropic_extract_text cb <;> simp [py_or, hke, hm, hx]
    exact ⟨hreq mb, (hreq mb).trans (hreq mb').symm⟩
  · intro env base keyEnv k m prompt maxT raw mb mb' cb hk hke hm
    have hreq : ∀ mbody : Json,
        (main_gemini env base keyEnv false (some m) prompt maxT raw mbody cb).requests
          = [geminiListReq base k, geminiChatReq base k m prompt maxT] := by
      intro mbody
      unfold main_gemini
      rw [hk]
      cases hx : gemini_extract_text cb <;> simp [py_or, hke, hm, hx]
    exact ⟨hreq mb, (hreq mb).trans (hreq mb').symm⟩

/-- Claim C3 witness: the amended openai_compat statement at a concrete
environment, explicit model gpt-4o and two different listing bodies. -/
theorem c3_explicit_model_witness :
    (main_openai_compat (fun _ => some "sk-w") "https://api.groq.com/openai/v1"
        (some "GROQ_API_KEY") [] false (some "gpt-4o") "hello" 64 false
        (Json.obj []) Json.null).requests
      = [openaiListReq "https://api.groq.com/openai/v1"
           (build_openai_compat_headers
             (env_api_key (fun _ => some "sk-w") (some "GROQ_API_KEY")) []),
         openaiChatReq "https://api.groq.com/openai/v1"
           (build_openai_compat_headers
             (env_api_key (fun _ => some "sk-w") (some "GROQ_API_KEY")) [])
           "gpt-4o" "hello" 64]
    ∧ (main_openai_compat (fun _ => some "sk-w") "https://api.groq.com/openai/v1"
        (some "GROQ_API_KEY") [] false (some "gpt-4o") "hello" 64 false
        (Json.obj []) Json.null).requests
      = (main_openai_compat (fun _ => some "sk-w") "https://api.groq.com/openai/v1"
        (some "GROQ_API_KEY") [] false (some "gpt-4o") "hello" 64 false
        (Json.obj [("data", Json.arr [])]) Json.null).requests :=
  c3_explicit_model.1 (fun _ => some "sk-w") "https://api.groq.com/openai/v1"
    (some "GROQ_API_KEY") [] "gpt-4o" "hello" 64 false
    (Json.obj []) (Json.obj [("data", Json.arr [])]) Json.null rfl (by decide)

/-- Claim C6: for every provider branch whose credential source names an
environment variable, an unset or empty variable makes the invocation exit
with the missing-credential error before any request is issued; when the
credential source is none (the local ollama entry), no credential is
required and the listing request is issued. -/
theorem c6_missing_credential :
    (∀ (env : EnvMap) (base k : String) (extra : List (String × String)) (l : Bool)
        (am : Option String) (prompt : String) (maxT : ℤ) (raw : Bool) (mb cb : Json),
      env k = none ∨ env k = some "" →
      main_openai_compat env base (some k) extra l am prompt maxT raw mb cb
        = { requests := [], reply := none, noTextMarker := false, outcome := .exited 1 })
    ∧ (∀ (env : EnvMap) (base k ver : String) (l : Bool) (am : Option String)
        (prompt : String) (maxT : ℤ) (raw : Bool) (mb cb : Json),
      env k = none ∨ env k = some "" →
      main_anthropic env base k ver l am prompt maxT raw mb cb
        = { requests := [], reply := none, noTextMarker := false, outcome := .exited 1 })
    ∧ (∀ (env : EnvMap) (base k : String) (l : Bool) (am : Option String)
        (prompt : String) (maxT : ℤ) (raw : Bool) (mb cb : Json),
      env k = none ∨ env k = some "" →
      main_gemini env base k l am prompt maxT raw mb cb
        = { requests := [], reply := none, noTextMarker := false, outcome := .exited 1 })
    ∧ (∀ (env : EnvMap) (base : String) (extra : List (String × String))
        (am : Option String) (prompt : String) (maxT : ℤ) (raw : Bool) (mb cb : Json),
      (main_openai_compat env base none extra true am prompt maxT raw mb cb).requests
        = [openaiListReq base (build_openai_compat_headers none extra)]
      ∧ (main_openai_compat env base none extra true am prompt maxT raw mb cb).outcome
        = .finished) := by
  refine ⟨?_, ?_, ?_, ?_⟩
  · intro env base k extra l am prompt maxT raw mb cb h
    rcases h with h | h <;> simp [main_openai_compat, missing_key, h]
  · intro env base k ver l am prompt maxT raw mb cb h
    rcases h with h | h <;> simp [main_anthropic, h]
  · intro env base k l am prompt maxT raw mb cb h
    rcases h with h | h <;> simp [main_gemini, h]
  · intro env base extra am prompt maxT raw mb cb
    constructor <;> simp [main_openai_compat, missing_key, env_api_key]

/-- Claim C6 witness: the openai_compat part applied to an empty
environment, and the anthropic part likewise. -/
theorem c6_missing_credential_witness :
    main_openai_compat (fun _ => none) "https://api.openai.com/v1" (some "OPENAI_API_KEY")
        [] false none "hi" 64 false Json.null Json.null
      = { requests := [], reply := none, noTextMarker := false, outcome := .exited 1 } :=
  c6_missing_credential.1 (fun _ => none) "https://api.openai.com/v1" "OPENAI_API_KEY"
    [] false none "hi" 64 false Json.null Json.null (Or.inl rfl)

/-- Two predicates that agree on a list give the same any. -/
theorem list_any_congr {α : Type} {p q : α → Bool} {l : List α}
    (h : ∀ a ∈ l, p a = q a) : l.any p = l.any q := by
  induction l with
  | nil => rfl
  | cons a t ih =>
    simp only [List.any_cons]
    rw [h a (List.mem_cons_self a t), ih (fun b hb => h b (List.mem_cons_of_mem a hb))]

/-- Everything in a dict after insertion is the inserted pair or was
already there. -/
theorem mem_dictInsert {kv : String × String} {d : List (String × String)}
    {k v : String} (h : kv ∈ dictInsert d k v) : kv = (k, v) ∨ kv ∈ d := by
  unfold dictInsert at h
  split at h
  · rcases List.mem_map.1 h with ⟨kv', hkv', he⟩
    by_cases hc : kv'.1 == k
    · left
      rw [if_pos hc] at he
      exact he.symm
    · right
      rw [if_neg hc] at he
      exact he ▸ hkv'
  · rcases List.mem_append.1 h with h' | h'
    · right; exact h'
    · left; simpa using h'

/-- Insertion under a different key keeps a pair in the dict. -/
theorem mem_dictInsert_of_mem {kv : String × String} {d : List (String × String)}
    {k v : String} (hne : kv.1 ≠ k) (h : kv ∈ d) : kv ∈ dictInsert d k v := by
  unfold dictInsert
  split
  · refine List.mem_map.2 ⟨kv, h, ?_⟩
    rw [if_neg (by simpa using hne)]
  · exact List.mem_append_left _ h

/-- After insertion the key is present. -/
theorem hasKey_dictInsert_self (d : List (String × String)) (k v : String) :
    hasKey (dictInsert d k v) k = true := by
  unfold hasKey dictInsert
  split
  · rename_i hany
    rw [List.any_map]
    rcases List.any_eq_true.1 hany with ⟨kv, hkv, hc⟩
    refine List.any_eq_true.2 ⟨kv, hkv, ?_⟩
    simp [Function.comp, hc]
  · rw [List.any_append]
    simp

/-- Insertion does not change the presence of a different key. -/
theorem hasKey_dictInsert_other {d : List (String × String)} {k v k' : String}
    (hne : k ≠ k') : hasKey (dictInsert d k v) k' = hasKey d k' := by
  unfold hasKey dictInsert
  split
  · rw [List.any_map]
    refine list_any_congr ?_
    intro kv _
    by_cases hc : kv.1 == k
    · have hkv : kv.1 = k := by simpa using hc
      simp [Function.comp, hc, hkv]
    · simp [Function.comp, hc]
  · rw [List.any_append]
    simp [hne]

/-- The extra-header fold of build_openai_compat_headers keeps every value
non-empty when the accumulator's values are. -/
theorem foldl_extra_val (extra : List (String × String)) :
    ∀ acc : List (String × String), (∀ kv ∈ acc, kv.2 ≠ "") →
    ∀ kv ∈ List.foldl
        (fun acc kv => if kv.2 = "" then acc else dictInsert acc kv.1 kv.2) acc extra,
      kv.2 ≠ "" := by
  induction extra with
  | nil => intro acc hacc kv hkv; exact hacc kv hkv
  | cons e t ih =>
    intro acc hacc kv hkv
    rw [List.foldl_cons] at hkv
    refine ih _ ?_ kv hkv
    intro kv' hkv'
    by_cases he : e.2 = ""
    · rw [if_pos he] at hkv'; exact hacc kv' hkv'
    · rw [if_neg he] at hkv'
      rcases mem_dictInsert hkv' with rfl | hm
      · exact he
      · exact hacc kv' hm

/-- The extra-header fold does not change the presence of any key that no
extra header uses. -/
theorem foldl_extra_hasKey (k' : String) :
    ∀ (extra acc : List (String × String)), (∀ kv ∈ extra, kv.1 ≠ k') →
    hasKey (List.foldl
        (fun acc kv => if kv.2 = "" then acc else dictInsert acc kv.1 kv.2) acc extra) k'
      = hasKey acc k' := by
  intro extra
  induction extra with
  | nil => intro acc _; rfl
  | cons e t ih =>
    intro acc hex
    rw [List.foldl_cons, ih _ (fun kv hkv => hex kv (List.mem_cons_of_mem e hkv))]
    by_cases he : e.2 = ""
    · rw [if_pos he]
    · rw [if_neg he, hasKey_dictInsert_other (hex e (List.mem_cons_self e t))]

/-- The extra-header fold keeps a pair whose key no extra header uses. -/
theorem foldl_extra_mem (pair : String × String) :
    ∀ (extra acc : List (String × String)), (∀ kv ∈ extra, kv.1 ≠ pair.1) →
    pair ∈ acc →
    pair ∈ List.foldl
        (fun acc kv => if kv.2 = "" then acc else dictInsert acc kv.1 kv.2) acc extra := by
  intro extra
  induction extra with
  | nil => intro acc _ h; exact h
  | cons e t ih =>
    intro acc hex h
    rw [List.foldl_cons]
    refine ih _ (fun kv hkv => hex kv (List.mem_cons_of_mem e hkv)) ?_
    by_cases he : e.2 = ""
    · rw [if_pos he]; exact h
    · rw [if_neg he]
      refine mem_dictInsert_of_mem (fun hc => ?_) h
      exact hex e (List.mem_cons_self e t) hc.symm

/-- A bearer token header value is never the empty string. -/
theorem bearer_ne_empty (k : String) : ("Bearer " ++ k) ≠ "" := by
  intro h
  have hd := congrArg String.data h
  rw [String.data_append] at hd
  rw [List.append_eq_nil] at hd
  exact absurd hd.1 (by decide)

/-- Every value in a built OpenAI-compatible header mapping is non-empty. -/
theorem build_headers_vals (apiKey : Option String) (extra : List (String × String)) :
    ∀ kv ∈ build_openai_compat_headers apiKey extra, kv.2 ≠ "" := by
  cases apiKey with
  | none =>
    simp only [build_openai_compat_headers]
    refine foldl_extra_val extra _ ?_
    intro kv hkv
    simp only [List.mem_cons, List.not_mem_nil, or_false] at hkv
    rcases hkv with rfl | rfl <;> decide
  | some k =>
    simp only [build_openai_compat_headers]
    refine foldl_extra_val extra _ ?_
    intro kv hkv
    by_cases hk : k = ""
    · rw [if_pos hk] at hkv
      simp only [List.mem_cons, List.not_mem_nil, or_false] at hkv
      rcases hkv with rfl | rfl <;> decide
    · rw [if_neg hk] at hkv
      rcases mem_dictInsert hkv with rfl | hm
      · exact bearer_ne_empty k
      · simp only [List.mem_cons, List.not_mem_nil, or_false] at hm
        rcases hm with rfl | rfl <;> decide

/-- With a truthy API key the Authorization header is present. -/
theorem build_headers_auth_some (k : String) (hk : k ≠ "")
    (extra : List (String × String)) (hex : ∀ kv ∈ extra, kv.1 ≠ "Authorization") :
    hasKey (build_openai_compat_headers (some k) extra) "Authorization" = true := by
  simp only [build_openai_compat_headers]
  rw [foldl_extra_hasKey _ extra _ hex, if_neg hk]
  exact hasKey_dictInsert_self _ _ _

/-- With no API key the Authorization header is absent. -/
theorem build_headers_auth_none (extra : List (String × String))
    (hex : ∀ kv ∈ extra, kv.1 ≠ "Authorization") :
    hasKey (build_openai_compat_headers none extra) "Authorization" = false := by
  simp only [build_openai_compat_headers]
  rw [foldl_extra_hasKey _ extra _ hex]
  decide

/-- An OpenAI-compatible header mapping never carries x-api-key. -/
theorem build_headers_no_xapikey (apiKey : Option String)
    (extra : List (String × String)) (hex : ∀ kv ∈ extra, kv.1 ≠ "x-api-key") :
    hasKey (build_openai_compat_headers apiKey extra) "x-api-key" = false := by
  cases apiKey with
  | none =>
    simp only [build_openai_compat_headers]
    rw [foldl_extra_hasKey _ extra _ hex]
    decide
  | some k =>
    simp only [build_openai_compat_headers]
    rw [foldl_extra_hasKey _ extra _ hex]
    by_cases hk : k = ""
    · rw [if_pos hk]; decide
    · rw [if_neg hk, hasKey_dictInsert_other (by decide)]
      decide

/-- Accept: application/json survives header building when no extra header
redefines it. -/
theorem build_headers_accept (apiKey : Option String)
    (extra : List (String × String)) (hex : ∀ kv ∈ extra, kv.1 ≠ "Accept") :
    ("Accept", "application/json") ∈ build_openai_compat_headers apiKey extra := by
  cases apiKey with
  | none =>
    simp only [build_openai_compat_headers]
    exact foldl_extra_mem _ extra _ hex (List.mem_cons_self _ _)
  | some k =>
    simp only [build_openai_compat_headers]
    refine foldl_extra_mem _ extra _ hex ?_
    by_cases hk : k = ""
    · rw [if_pos hk]; exact List.mem_cons_self _ _
    · rw [if_neg hk]
      exact mem_dictInsert_of_mem (by decide) (List.mem_cons_self _ _)

/-- Content-Type: application/json survives header building when no extra
header redefines it. -/
theorem build_headers_ctype (apiKey : Option String)
    (extra : List (String × String)) (hex : ∀ kv ∈ extra, kv.1 ≠ "Content-Type") :
    ("Content-Type", "application/json") ∈ build_openai_compat_headers apiKey extra := by
  have hbase : ("Content-Type", "application/json")
      ∈ [("Accept", "application/json"), ("Content-Type", "application/json")] := by
    simp
  cases apiKey with
  | none =>
    simp only [build_openai_compat_headers]
    exact foldl_extra_mem _ extra _ hex hbase
  | some k =>
    simp only [build_openai_compat_headers]
    refine foldl_extra_mem _ extra _ hex ?_
    by_cases hk : k = ""
    · rw [if_pos hk]; exact hbase
    · rw [if_neg hk]
      exact mem_dictInsert_of_mem (by decide) hbase

/-- Claim C8 counterexample: with ANTHROPIC_VERSION set to the empty
string, the claude registry entry's protocol version is "", and the built
Anthropic header mapping contains the empty-valued header
anthropic-version, contradicting the claim that no header with an empty
configured value is ever emitted. -/
theorem c8_empty_version_header :
    ("claude",
      ({ ptype := "anthropic", base_url := "https://api.anthropic.com",
         api_key_env := some "ANTHROPIC_API_KEY", extra_headers := [],
         anthropic_version := some "" } : ProviderCfg))
      ∈ PROVIDERS (fun s => if s = "ANTHROPIC_VERSION" then some "" else none)
    ∧ ("anthropic-version", "")
      ∈ providerHeaders
          { ptype := "anthropic", base_url := "https://api.anthropic.com",
            api_key_env := some "ANTHROPIC_API_KEY", extra_headers := [],
            anthropic_version := some "" }
          (some "sk-ant-test") :=
  ⟨by decide, by decide⟩

/-- The openai_compat per-provider facts C8 needs, assembled once. -/
theorem c8_case_openai (k : String) (hk : k ≠ "") (extra : List (String × String))
    (hexA : ∀ kv ∈ extra, kv.1 ≠ "Authorization")
    (hexX : ∀ kv ∈ extra, kv.1 ≠ "x-api-key") :
    (∀ kv ∈ build_openai_compat_headers (some k) extra, kv.2 ≠ "")
    ∧ hasKey (build_openai_compat_headers (some k) extra) "x-api-key" = false
    ∧ hasKey (build_openai_compat_headers (some k) extra) "Authorization" = true :=
  ⟨build_headers_vals _ _, build_headers_no_xapikey _ _ hexX,
   build_headers_auth_some k hk _ hexA⟩

/-- Claim C8 (amended): for every registry entry, under the flow's
guarantee that a required API key is present and non-empty and provided
ANTHROPIC_VERSION is not set to the empty string (in which case the
anthropic-version header is sent with that empty value), the built header
mapping has no empty-valued header, and it carries exactly the
authentication mechanism of its protocol family: x-api-key and no
Authorization for Anthropic, Authorization exactly when a key is
configured and never x-api-key for OpenAI-compatible, and no headers at
all for Gemini, whose credential travels as a query parameter. -/
theorem c8_headers (env : EnvMap) (p : String × ProviderCfg)
    (hp : p ∈ PROVIDERS env) (apiKey : Option String)
    (hkey : match p.2.api_key_env with
            | some _ => ∃ k, apiKey = some k ∧ k ≠ ""
            | none => apiKey = none)
    (hver : env "ANTHROPIC_VERSION" ≠ some "") :
    (∀ kv ∈ providerHeaders p.2 apiKey, kv.2 ≠ "")
    ∧ (if p.2.ptype = "anthropic" then
         hasKey (providerHeaders p.2 apiKey) "x-api-key" = true
         ∧ hasKey (providerHeaders p.2 apiKey) "Authorization" = false
       else if p.2.ptype = "openai_compat" then
         hasKey (providerHeaders p.2 apiKey) "x-api-key" = false
         ∧ hasKey (providerHeaders p.2 apiKey) "Authorization" = apiKey.isSome
       else providerHeaders p.2 apiKey = []) := by
  simp only [PROVIDERS, List.mem_cons, List.not_mem_nil, or_false] at hp
  have hnilA : ∀ kv ∈ ([] : List (String × String)), kv.1 ≠ "Authorization" := by simp
  have hnilX : ∀ kv ∈ ([] : List (String × String)), kv.1 ≠ "x-api-key" := by simp
  rcases hp with rfl | rfl | rfl | rfl | rfl | rfl | rfl | rfl | rfl | rfl
  -- openai
  · obtain ⟨k, rfl, hk⟩ := hkey
    have h := c8_case_openai k hk [] hnilA hnilX
    exact ⟨by simpa [providerHeaders] using h.1,
           by simp only [providerHeaders]; simpa using h.2⟩
  -- xai
  · obtain ⟨k, rfl, hk⟩ := hkey
    have h := c8_case_openai k hk [] hnilA hnilX
    exact ⟨by simpa [providerHeaders] using h.1,
           by simp only [providerHeaders]; simpa using h.2⟩
  -- mistral
  · obtain ⟨k, rfl, hk⟩ := hkey
    have h := c8_case_openai k hk [] hnilA hnilX
    exact ⟨by simpa [providerHeaders] using h.1,
           by simp only [providerHeaders]; simpa using h.2⟩
  -- groq
  · obtain ⟨k, rfl, hk⟩ := hkey
    have h := c8_case_openai k hk [] hnilA hnilX
    exact ⟨by simpa [providerHeaders] using h.1,
           by simp only [providerHeaders]; simpa using h.2⟩
  -- together
  · obtain ⟨k, rfl, hk⟩ := hkey
    have h := c8_case_openai k hk [] hnilA hnilX
    exact ⟨by simpa [providerHeaders] using h.1,
           by simp only [providerHeaders]; simpa using h.2⟩
  -- deepinfra
  · obtain ⟨k, rfl, hk⟩ := hkey
    have h := c8_case_openai k hk [] hnilA hnilX
    exact ⟨by simpa [providerHeaders] using h.1,
           by simp only [providerHeaders]; simpa using h.2⟩
  -- openrouter
  · obtain ⟨k, rfl, hk⟩ := hkey
    have hexA : ∀ kv ∈
        [("HTTP-Referer", (env "OPENROUTER_HTTP_REFERER").getD ""),
         ("X-Title", (env "OPENROUTER_X_TITLE").getD "gitar-llm-test")],
        kv.1 ≠ "Authorization" := by
      intro kv hkv
      simp only [List.mem_cons, List.not_mem_nil, or_false] at hkv
      rcases hkv with rfl | rfl
      · exact show ("HTTP-Referer" : String) ≠ "Authorization" by decide
      · exact show ("X-Title" : String) ≠ "Authorization" by decide
    have hexX : ∀ kv ∈
        [("HTTP-Referer", (env "OPENROUTER_HTTP_REFERER").getD ""),
         ("X-Title", (env "OPENROUTER_X_TITLE").getD "gitar-llm-test")],
        kv.1 ≠ "x-api-key" := by
      intro kv hkv
      simp only [List.mem_cons, List.not_mem_nil, or_false] at hkv
      rcases hkv with rfl | rfl
      · exact show ("HTTP-Referer" : String) ≠ "x-api-key" by decide
      · exact show ("X-Title" : String) ≠ "x-api-key" by decide
    have h := c8_case_openai k hk _ hexA hexX
    exact ⟨by simpa [providerHeaders] using h.1,
           by simp only [providerHeaders]; simpa using h.2⟩
  -- ollama
  · subst hkey
    exact ⟨by simpa [providerHeaders] using build_headers_vals none [],
           by simp only [providerHeaders]
              simpa using ⟨build_headers_no_xapikey none [] hnilX,
                           build_headers_auth_none [] hnilA⟩⟩
  -- claude
  · obtain ⟨k, rfl, hk⟩ := hkey
    have hv : (env "ANTHROPIC_VERSION").getD "2023-06-01" ≠ "" := by
      cases henv : env "ANTHROPIC_VERSION" with
      | none => decide
      | some x =>
        simp only [Option.getD_some]
        intro hx
        exact hver (by rw [henv, hx])
    refine ⟨?_, ?_⟩
    · intro kv hkv
      simp [providerHeaders, anthropic_headers] at hkv
      rcases hkv with rfl | rfl | rfl | rfl
      · decide
      · decide
      · exact hk
      · exact hv
    · rw [if_pos rfl]
      exact ⟨rfl, rfl⟩
  -- gemini
  · obtain ⟨k, rfl, hk⟩ := hkey
    refine ⟨?_, ?_⟩
    · intro kv hkv
      simp [providerHeaders] at hkv
    · simp [providerHeaders]

/-- Claim C8 witness: the amended theorem at the openai registry entry, an
empty process environment and the key sk-w. -/
theorem c8_headers_witness :
    (∀ kv ∈ providerHeaders
        { ptype := "openai_compat", base_url := "https://api.openai.com/v1",
          api_key_env := some "OPENAI_API_KEY", extra_headers := [],
          anthropic_version := none } (some "sk-w"), kv.2 ≠ "")
    ∧ (if ("openai_compat" : String) = "anthropic" then
         hasKey (providerHeaders
           { ptype := "openai_compat", base_url := "https://api.openai.com/v1",
             api_key_env := some "OPENAI_API_KEY", extra_headers := [],
             anthropic_version := none } (some "sk-w")) "x-api-key" = true
         ∧ hasKey (providerHeaders
           { ptype := "openai_compat", base_url := "https://api.openai.com/v1",
             api_key_env := some "OPENAI_API_KEY", extra_headers := [],
             anthropic_version := none } (some "sk-w")) "Authorization" = false
       else if ("openai_compat" : String) = "openai_compat" then
         hasKey (providerHeaders
           { ptype := "openai_compat", base_url := "https://api.openai.com/v1",
             api_key_env := some "OPENAI_API_KEY", extra_headers := [],
             anthropic_version := none } (some "sk-w")) "x-api-key" = false
         ∧ hasKey (providerHeaders
           { ptype := "openai_compat", base_url := "https://api.openai.com/v1",
             api_key_env := some "OPENAI_API_KEY", extra_headers := [],
             anthropic_version := none } (some "sk-w")) "Authorization"
             = (some "sk-w").isSome
       else providerHeaders
         { ptype := "openai_compat", base_url := "https://api.openai.com/v1",
           api_key_env := some "OPENAI_API_KEY", extra_headers := [],
           anthropic_version := none } (some "sk-w") = []) :=
  c8_headers (fun _ => none)
    ("openai", { ptype := "openai_compat", base_url := "https://api.openai.com/v1",
                 api_key_env := some "OPENAI_API_KEY", extra_headers := [],
                 anthropic_version := none })
    (by decide) (some "sk-w") ⟨"sk-w", rfl, by decide⟩ (by simp)

/-- Claim C9 counterexample: a gemini invocation issues two requests and
neither carries an Accept header at all (the listing GET passes no headers
and the chat POST only gains Content-Type from its JSON body), so not
every outgoing request carries Accept: application/json. -/
theorem c9_gemini_no_accept :
    ((main_gemini (fun _ => some "g-key") "https://generativelanguage.googleapis.com"
        "GEMINI_API_KEY" false (some "models/gemini-1.5-flash") "hi" 64 false
        (Json.obj []) (Json.obj [])).requests).map
      (fun r => hasKey (sentHeaders r) "Accept") = [false, false] :=
  rfl

/-- Claim C9 (amended): every request of the OpenAI-compatible and
Anthropic branches carries both Accept: application/json and
Content-Type: application/json (the extra headers of the registry never
redefine them); the Gemini branch sets no Accept header on any request,
and its POST carries Content-Type: application/json only because the body
is passed as JSON. -/
theorem c9_headers :
    (∀ (env : EnvMap) (base : String) (keyEnv : Option String)
        (extra : List (String × String)) (l : Bool) (am : Option String)
        (prompt : String) (maxT : ℤ) (raw : Bool) (mb cb : Json),
      (∀ kv ∈ extra, kv.1 ≠ "Accept" ∧ kv.1 ≠ "Content-Type") →
      ∀ r ∈ (main_openai_compat env base keyEnv extra l am prompt maxT raw mb cb).requests,
        ("Accept", "application/json") ∈ sentHeaders r
        ∧ ("Content-Type", "application/json") ∈ sentHeaders r)
    ∧ (∀ (env : EnvMap) (base keyEnv ver : String) (l : Bool) (am : Option String)
        (prompt : String) (maxT : ℤ) (raw : Bool) (mb cb : Json),
      ∀ r ∈ (main_anthropic env base keyEnv ver l am prompt maxT raw mb cb).requests,
        ("Accept", "application/json") ∈ sentHeaders r
        ∧ ("Content-Type", "application/json") ∈ sentHeaders r)
    ∧ (∀ (env : EnvMap) (base keyEnv : String) (l : Bool) (am : Option String)
        (prompt : String) (maxT : ℤ) (raw : Bool) (mb cb : Json),
      ∀ r ∈ (main_gemini env base keyEnv l am prompt maxT raw mb cb).requests,
        hasKey (sentHeaders r) "Accept" = false
        ∧ (r.method = "POST" → ("Content-Type", "application/json") ∈ sentHeaders r)) := by
  refine ⟨?_, ?_, ?_⟩
  · intro env base keyEnv extra l am prompt maxT raw mb cb hex r hr
    have hA := build_headers_accept (env_api_key env keyEnv) extra
      (fun kv hkv => (hex kv hkv).1)
    have hC := build_headers_ctype (env_api_key env keyEnv) extra
      (fun kv hkv => (hex kv hkv).2)
    simp only [main_openai_compat] at hr
    split at hr
    · simp at hr
    · split at hr
      · simp only [List.mem_cons, List.not_mem_nil, or_false] at hr
        subst hr
        exact ⟨hA, hC⟩
      · split at hr
        · simp only [List.mem_cons, List.not_mem_nil, or_false] at hr
          subst hr
          exact ⟨hA, hC⟩
        · split at hr
          · simp only [List.mem_cons, List.not_mem_nil, or_false] at hr
            subst hr
            exact ⟨hA, hC⟩
          · split at hr
            · simp only [List.mem_cons, List.not_mem_nil, or_false] at hr
              rcases hr with rfl | rfl
              · exact ⟨hA, hC⟩
              · exact ⟨hA, hC⟩
            · simp only [List.mem_cons, List.not_mem_nil, or_false] at hr
              rcases hr with rfl | rfl
              · exact ⟨hA, hC⟩
              · exact ⟨hA, hC⟩
  · intro env base keyEnv ver l am prompt maxT raw mb cb r hr
    have hmem : ("Accept", "application/json") ∈ anthropic_headers
          ((env keyEnv).getD "") ver
        ∧ ("Content-Type", "application/json") ∈ anthropic_headers
          ((env keyEnv).getD "") ver := by
      constructor <;> simp [anthropic_headers]
    simp only [main_anthropic] at hr
    split at hr
    · simp at hr
    · rename_i k hk
      split at hr
      · simp at hr
      · split at hr
        · simp only [List.mem_cons, List.not_mem_nil, or_false] at hr
          subst hr
          refine ⟨?_, ?_⟩ <;> simp [sentHeaders, anthropicListReq, anthropic_headers]
        · split at hr
          · simp only [List.mem_cons, List.not_mem_nil, or_false] at hr
            subst hr
            refine ⟨?_, ?_⟩ <;> simp [sentHeaders, anthropicListReq, anthropic_headers]
          · split at hr
            · simp only [List.mem_cons, List.not_mem_nil, or_false] at hr
              subst hr
              refine ⟨?_, ?_⟩ <;> simp [sentHeaders, anthropicListReq, anthropic_headers]
            · split at hr
              · simp only [List.mem_cons, List.not_mem_nil, or_false] at hr
                rcases hr with rfl | rfl
                · refine ⟨?_, ?_⟩ <;>
                    simp [sentHeaders, anthropicListReq, anthropic_headers]
                · refine ⟨?_, ?_⟩ <;>
                    simp [sentHeaders, anthropicChatReq, anthropic_headers]
              · simp only [List.mem_cons, List.not_mem_nil, or_false] at hr
                rcases hr with rfl | rfl
                · refine ⟨?_, ?_⟩ <;>
                    simp [sentHeaders, anthropicListReq, anthropic_headers]
                · refine ⟨?_, ?_⟩ <;>
                    simp [sentHeaders, anthropicChatReq, anthropic_headers]
  · intro env base keyEnv l am prompt maxT raw mb cb r hr
    simp only [main_gemini] at hr
    split at hr
    · simp at hr
    · split at hr
      · simp at hr
      · split at hr
        · simp only [List.mem_cons, List.not_mem_nil, or_false] at hr
          subst hr
          exact ⟨rfl, fun h => absurd h (show ¬ ("GET" : String) = "POST" by decide)⟩
        · split at hr
          · simp only [List.mem_cons, List.not_mem_nil, or_false] at hr
            subst hr
            exact ⟨rfl, fun h => absurd h (show ¬ ("GET" : String) = "POST" by decide)⟩
          · split at hr
            · simp only [List.mem_cons, List.not_mem_nil, or_false] at hr
              subst hr
              exact ⟨rfl, fun h => absurd h (show ¬ ("GET" : String) = "POST" by decide)⟩
            · split at hr
              · simp only [List.mem_cons, List.not_mem_nil, or_false] at hr
                rcases hr with rfl | rfl
                · exact ⟨rfl, fun h => absurd h (show ¬ ("GET" : String) = "POST" by decide)⟩
                · exact ⟨rfl, fun _ => by simp [sentHeaders, geminiChatReq, dictInsert]⟩
              · simp only [List.mem_cons, List.not_mem_nil, or_false] at hr
                rcases hr with rfl | rfl
                · exact ⟨rfl, fun h => absurd h (show ¬ ("GET" : String) = "POST" by decide)⟩
                · exact ⟨rfl, fun _ => by simp [sentHeaders, geminiChatReq, dictInsert]⟩

/-- Claim C9 witness: the gemini part applied to the listing request of a
concrete run. -/
theorem c9_headers_witness :
    hasKey (sentHeaders (geminiListReq "https://generativelanguage.googleapis.com"
        "g-key")) "Accept" = false
    ∧ ((geminiListReq "https://generativelanguage.googleapis.com" "g-key").method
        = "POST" →
      ("Content-Type", "application/json")
        ∈ sentHeaders (geminiListReq "https://generativelanguage.googleapis.com"
            "g-key")) :=
  c9_headers.2.2 (fun _ => some "g-key") "https://generativelanguage.googleapis.com"
    "GEMINI_API_KEY" true none "hi" 64 false Json.null Json.null
    (geminiListReq "https://generativelanguage.googleapis.com" "g-key")
    (List.mem_cons_self _ _)

/-- Dropping leading slashes from a slash run prepended to a list reaches
the list itself. -/
theorem dropWhile_replicate_append (n : Nat) (l : List Char) :
    List.dropWhile (fun c => c == '/') (List.replicate n '/' ++ l)
      = List.dropWhile (fun c => c == '/') l := by
  induction n with
  | zero => rfl
  | succ m ih => simp [List.replicate_succ, List.dropWhile_cons, ih]

/-- rstrip("/") is invariant under appending any run of slashes. -/
theorem rstripSlash_append_slashes (s : String) (n : Nat) :
    rstripSlash (s ++ slashes n) = rstripSlash s := by
  unfold rstripSlash slashes
  congr 1
  have hdata : (s ++ (⟨List.replicate n '/'⟩ : String)).data
      = s.data ++ List.replicate n '/' := String.data_append s _
  rw [hdata, List.reverse_append, List.reverse_replicate, dropWhile_replicate_append]

/-- Claim C10: for every protocol family, every endpoint URL is invariant
under trailing slashes in the configured base URL, because each URL is
built from the base with trailing slashes stripped before the path is
appended. -/
theorem c10_trailing_slash (base model : String) (n : Nat) :
    openai_compat_list_models_url (base ++ slashes n) = openai_compat_list_models_url base
    ∧ openai_compat_chat_url (base ++ slashes n) = openai_compat_chat_url base
    ∧ anthropic_list_models_url (base ++ slashes n) = anthropic_list_models_url base
    ∧ anthropic_chat_url (base ++ slashes n) = anthropic_chat_url base
    ∧ gemini_list_models_url (base ++ slashes n) = gemini_list_models_url base
    ∧ gemini_chat_url (base ++ slashes n) model = gemini_chat_url base model := by
  refine ⟨?_, ?_, ?_, ?_, ?_, ?_⟩ <;>
    simp [openai_compat_list_models_url, openai_compat_chat_url,
      anthropic_list_models_url, anthropic_chat_url, gemini_list_models_url,
      gemini_chat_url, rstripSlash_append_slashes]
